import Mathlib

/-!
Shallow embedding of `src/part2/memory_management/rust_memory.rs`, a Rust
memory-management demonstration program, together with proofs about its
operations.

Machine integers: Rust `i32` values are embedded as `Int` together with the
two's-complement wrapping function `wrap32` (the defined release-profile
behaviour of `i32` arithmetic on overflow); `usize → i32` `as`-casts are
`asI32` (truncation, which never panics in any profile).  The debug-profile
behaviour, where an overflowing `+` or `*` panics, is embedded separately by
the `*_checked` variants, which return `none` exactly where the debug build
panics.

Side effects: `println!` output is embedded as `List String` values (one
entry per `println!` call); `&mut self` methods become functions
`DataBuffer → ... → DataBuffer`, and `&self` borrows return the borrowed
value unchanged alongside their result.  The `.data.as_ptr()` / `Box`
addresses printed by the program are runtime allocator values; they enter
the embedding as explicit `Nat` parameters of the output functions.
-/

/-- Two's-complement reduction of an integer into the `i32` range
`[-2^31, 2^31)`: the value a wrapping 32-bit operation stores. -/
def wrap32 (x : Int) : Int := (x + 2147483648) % 4294967296 - 2147483648

/-- The proposition that `x` is representable as an `i32`. -/
def inRange32 (x : Int) : Prop := -2147483648 ≤ x ∧ x < 2147483648

instance (x : Int) : Decidable (inRange32 x) := by
  unfold inRange32; infer_instance

/-- The Rust `as`-cast `usize → i32`: truncate to 32 bits and reinterpret
as two's complement.  This cast never panics. -/
def asI32 (n : Nat) : Int := wrap32 (n : Int)

/-- `struct DataBuffer { data: Vec<i32>, name: String }`
(rust_memory.rs, lines 8-11).  `Vec<i32>` is embedded as `List Int`;
every operation below stores only `wrap32`-reduced values. -/
structure DataBuffer where
  data : List Int
  name : String
  deriving DecidableEq, Repr

/-- `DataBuffer::new(name, size)` (lines 15-22): allocates `vec![0; size]`
and takes ownership of `name`.  (Its two `println!` lines are modelled by
`newLines` below.) -/
def DataBuffer.new (name : String) (size : Nat) : DataBuffer :=
  { data := List.replicate size 0, name := name }

/-- `fn fill_with_values(&mut self, start: i32)` (lines 31-36): the loop
`for (i, item) in self.data.iter_mut().enumerate()` overwrites the element
at each index `i` with `start + i as i32`, an `i32` addition (wrapping in
release; the checked debug semantics is `fill_with_values_checked`). -/
def DataBuffer.fill_with_values (b : DataBuffer) (start : Int) : DataBuffer :=
  { b with data := b.data.mapIdx (fun i _ => wrap32 (start + asI32 i)) }

/-- `fn into_sum(self) -> i32` (lines 39-44): `self.data.iter().sum()`,
a left fold of `i32` addition over the elements starting from `0`
(wrapping in release; the checked debug semantics is `into_sum_checked`). -/
def DataBuffer.into_sum (b : DataBuffer) : Int :=
  b.data.foldl (fun acc x => wrap32 (acc + x)) 0

/-- `fn process_buffer(buffer: &DataBuffer) -> i32` (lines 55-58):
`buffer.data.iter().filter(|&&x| x > 0).count() as i32`.  The shared
borrow is embedded by returning the buffer unchanged next to the count;
`count() as i32` is the (non-panicking) `usize → i32` truncating cast. -/
def process_buffer (b : DataBuffer) : Int × DataBuffer :=
  (asI32 (b.data.countP (fun x => decide (0 < x))), b)

/-- `fn modify_buffer(buffer: &mut DataBuffer, multiplier: i32)`
(lines 61-66): `*item *= multiplier` on every element, an `i32`
multiplication (wrapping in release; checked debug semantics is
`modify_buffer_checked`). -/
def modify_buffer (b : DataBuffer) (multiplier : Int) : DataBuffer :=
  { b with data := b.data.map (fun x => wrap32 (x * multiplier)) }

/-- An `i32` addition under the debug profile: returns the sum when it is
representable, `none` where the debug build panics with overflow. -/
def checkedAdd (a b : Int) : Option Int :=
  if inRange32 (a + b) then some (a + b) else none

/-- An `i32` multiplication under the debug profile. -/
def checkedMul (a b : Int) : Option Int :=
  if inRange32 (a * b) then some (a * b) else none

/-- Runs a fallible element operation over a list, stopping at the first
failure: the embedding of a loop whose body may panic. -/
def mapOpt (f : α → Option β) : List α → Option (List β)
  | [] => some []
  | x :: xs => do
    let y ← f x
    let ys ← mapOpt f xs
    pure (y :: ys)

/-- Debug-profile `fill_with_values`: each `start + i as i32` is a checked
addition; `none` marks the overflow panic. -/
def DataBuffer.fill_with_values_checked (b : DataBuffer) (start : Int) :
    Option DataBuffer :=
  (mapOpt (fun i => checkedAdd start (asI32 i)) (List.range b.data.length)).map
    (fun l => { b with data := l })

/-- Debug-profile accumulator loop of `into_sum`. -/
def sumChecked (acc : Int) : List Int → Option Int
  | [] => some acc
  | x :: xs => do
    let a ← checkedAdd acc x
    sumChecked a xs

/-- Debug-profile `into_sum`: `iter().sum()` folds checked `i32` additions
from `0`; `none` marks the overflow panic. -/
def DataBuffer.into_sum_checked (b : DataBuffer) : Option Int :=
  sumChecked 0 b.data

/-- Debug-profile `modify_buffer`: each `*item *= multiplier` is a checked
multiplication; `none` marks the overflow panic. -/
def modify_buffer_checked (b : DataBuffer) (multiplier : Int) :
    Option DataBuffer :=
  (mapOpt (fun x => checkedMul x multiplier) b.data).map
    (fun l => { b with data := l })

/-- Decidable companion of the condition under which every partial sum of
the debug-profile `into_sum` loop stays representable. -/
def sumsOk (acc : Int) : List Int → Bool
  | [] => true
  | x :: xs => decide (inRange32 (acc + x)) && sumsOk (acc + x) xs

/-- The `HashMap<String, Vec<i32>>` of DEMO 6, embedded extensionally as a
partial function from keys to values (the standard model of the library
hash map's documented insert/get/remove behaviour). -/
def HMap := String → Option (List Int)

/-- `HashMap::new()`. -/
def HMap.empty : HMap := fun _ => none

/-- `cache.insert(k, v)`: binds `k` to `v`, replacing any previous
binding (the returned previous value is discarded by the demo). -/
def HMap.insert (m : HMap) (k : String) (v : List Int) : HMap :=
  fun q => if q = k then some v else m q

/-- `cache.get(k)`: the current binding of `k`, if any. -/
def HMap.get (m : HMap) (k : String) : Option (List Int) := m k

/-- `cache.remove(k)`: returns the current binding of `k` (ownership moves
out of the map) together with the map without `k`. -/
def HMap.remove (m : HMap) (k : String) : Option (List Int) × HMap :=
  (m k, fun q => if q = k then none else m q)

/-- A mutating map operation: the two kinds the demo map supports. -/
inductive MapOp where
  | insert (k : String) (v : List Int)
  | remove (k : String)

/-- The key an operation targets. -/
def MapOp.key : MapOp → String
  | .insert k _ => k
  | .remove k => k

/-- Runs one operation on a map state. -/
def MapOp.apply (m : HMap) : MapOp → HMap
  | .insert k v => m.insert k v
  | .remove k => (m.remove k).2

/-- Runs a sequence of operations left to right. -/
def applyOps (m : HMap) (ops : List MapOp) : HMap :=
  ops.foldl MapOp.apply m

/-- Rendering of a pointer by `{:p}`: `0x` followed by hex digits.  The
numeric address is a runtime allocator value, passed in as a parameter. -/
def addrStr (a : Nat) : String := "0x" ++ String.mk (Nat.toDigits 16 a)

/-- Rendering of a `Vec<i32>` by `{:?}`. -/
def fmtVec (v : List Int) : String :=
  "[" ++ String.intercalate (", ") (v.map toString) ++ "]"

/-- The 47-character separator printed by `main`. -/
def sepLine : String := String.mk (List.replicate 47 '═')

/-- The two lines printed by `DataBuffer::new` (lines 16-17). -/
def newLines (name : String) (size : Nat) : List String :=
  ["✓ Creating buffer \x27" ++ name ++ "\x27 with " ++ toString size ++
     " elements",
   "  Memory allocated for vector"]

/-- `fn display_info(&self)` (lines 25-28): prints the label, the element
count, and the address of the vector's heap allocation (a runtime value,
here the parameter `addr`).  The shared borrow returns the buffer
unchanged. -/
def DataBuffer.display_info (b : DataBuffer) (addr : Nat) :
    List String × DataBuffer :=
  (["  Buffer \x27" ++ b.name ++ "\x27 has " ++ toString b.data.length ++
      " elements",
    "  Memory address: " ++ addrStr addr], b)

/-- The line printed by `fill_with_values` (line 35). -/
def fillLine (b : DataBuffer) : String :=
  "  ✓ Filled buffer \x27" ++ b.name ++ "\x27"

/-- The line printed by `into_sum` (line 41). -/
def consumedLine (b : DataBuffer) (sum : Int) : String :=
  "  ✓ Buffer \x27" ++ b.name ++ "\x27 consumed, sum = " ++ toString sum

/-- The line printed by `Drop::drop` (line 50) when a buffer is freed. -/
def dropLine (b : DataBuffer) : String :=
  "  ✗ Dropping buffer \x27" ++ b.name ++ "\x27 - memory freed"

/-- The line printed by `process_buffer` (line 56). -/
def processLine (b : DataBuffer) : String :=
  "  Processing buffer \x27" ++ b.name ++ "\x27..."

/-- The line printed by `modify_buffer` (line 65). -/
def modifyLine (b : DataBuffer) : String :=
  "  ✓ Modified buffer \x27" ++ b.name ++ "\x27"

/-- Output of DEMO 1 (lines 76-86): create, display twice (the move does
not reallocate, so both displays show the same address `a1`), note, drop. -/
def demo1Out (a1 : Nat) : List String :=
  let buffer1 := DataBuffer.new ("Buffer1") 5
  ["--- DEMO 1: Ownership Transfer ---"]
    ++ newLines ("Buffer1") 5
    ++ (buffer1.display_info a1).1
    ++ (buffer1.display_info a1).1
    ++ ["  ℹ buffer1 is no longer accessible\n"]
    ++ [dropLine buffer1]

/-- Output of DEMO 2 (lines 91-101): create, process twice, counts,
display, drop. -/
def demo2Out (a2 : Nat) : List String :=
  let buffer2 := DataBuffer.new ("Buffer2") 5
  let count1 := (process_buffer buffer2).1
  let count2 := (process_buffer buffer2).1
  ["\n--- DEMO 2: Immutable Borrowing ---"]
    ++ newLines ("Buffer2") 5
    ++ [processLine buffer2]
    ++ [processLine buffer2]
    ++ ["  Counts: " ++ toString count1 ++ ", " ++ toString count2]
    ++ (buffer2.display_info a2).1
    ++ [dropLine buffer2]

/-- Output of DEMO 3 (lines 106-118): create, fill with 10, modify by 2,
display, drop. -/
def demo3Out (a3 : Nat) : List String :=
  let buffer3 := DataBuffer.new ("Buffer3") 8
  let filled := buffer3.fill_with_values 10
  let modified := modify_buffer filled 2
  ["\n--- DEMO 3: Mutable Borrowing ---"]
    ++ newLines ("Buffer3") 8
    ++ [fillLine filled]
    ++ [modifyLine modified]
    ++ (modified.display_info a3).1
    ++ [dropLine modified]

/-- Output of DEMO 4 (lines 123-132): create, fill with 1, consume (the
drop of `self` at the end of `into_sum` prints before `into_sum`
returns), final sum. -/
def demo4Out : List String :=
  let buffer4 := DataBuffer.new ("Buffer4") 6
  let filled := buffer4.fill_with_values 1
  let sum := filled.into_sum
  ["\n--- DEMO 4: Consuming Value ---"]
    ++ newLines ("Buffer4") 6
    ++ [fillLine filled]
    ++ [consumedLine filled sum]
    ++ [dropLine filled]
    ++ ["  Final sum: " ++ toString sum]

/-- Output of DEMO 5 (lines 137-147): the boxed scalar `42`, its runtime
address `a5`, and the large allocation note. -/
def demo5Out (a5 : Nat) : List String :=
  ["\n--- DEMO 5: Heap Allocation ---",
   "  Boxed value: " ++ toString (42 : Int),
   "  Address: " ++ addrStr a5,
   "  Large data (1MB) allocated on heap"]

/-- Output of DEMO 6 (lines 152-168): two inserts, a `get` of `key1`, a
`remove` of `key2`, each printed only when it yields a value. -/
def demo6Out : List String :=
  let cache := (HMap.empty.insert ("key1") [1, 2, 3]).insert ("key2") [4, 5, 6]
  ["\n--- DEMO 6: Collections ---"]
    ++ (match cache.get ("key1") with
        | some values => ["  Cache values: " ++ fmtVec values]
        | none => [])
    ++ (match (cache.remove ("key2")).1 with
        | some values => ["  Removed values: " ++ fmtVec values]
        | none => [])

/-- Output of DEMO 7 and the closing banner (lines 173-181). -/
def demo7Out : List String :=
  ["\n--- DEMO 7: Memory Safety ---",
   "  ✓ No dangling pointers - impossible at compile time",
   "  ✓ No double-free - prevented by ownership",
   "  ✓ No use-after-free - borrow checker enforces",
   "  ✓ No data races - enforced at compile time",
   "\n" ++ sepLine,
   "All buffers automatically cleaned up!",
   sepLine]

/-- The complete console output of `main` (lines 68-182), one list entry
per `println!` call, as a function of the four distinct runtime heap
addresses the program prints: `a1`, `a2`, `a3` for the vectors of
Buffer1/2/3 and `a5` for the DEMO 5 box. -/
def mainOutput (a1 a2 a3 a5 : Nat) : List String :=
  [sepLine, "RUST: Memory Management with Ownership", sepLine ++ "\n"]
    ++ demo1Out a1
    ++ demo2Out a2
    ++ demo3Out a3
    ++ demo4Out
    ++ demo5Out a5
    ++ demo6Out
    ++ demo7Out

/-- Replaces the five lines of `mainOutput` that render a runtime memory
address (indices 7 and 9 in DEMO 1, 19 in DEMO 2, 27 in DEMO 3, 38 in
DEMO 5) by the empty string, leaving every other line untouched. -/
def maskAddrs (l : List String) : List String :=
  ((((l.set 7 ("")).set 9 ("")).set 19 ("")).set 27 ("")).set 38 ("")

/-! ### Arithmetic facts about the `i32` embedding -/

theorem wrap32_eq_self {x : Int} (h : inRange32 x) : wrap32 x = x := by
  unfold inRange32 at h; unfold wrap32; omega

theorem wrap32_add_left (a b : Int) : wrap32 (wrap32 a + b) = wrap32 (a + b) := by
  unfold wrap32; omega

theorem wrap32_add_right (a b : Int) : wrap32 (a + wrap32 b) = wrap32 (a + b) := by
  unfold wrap32; omega

theorem asI32_eq_self {n : Nat} (h : (n : Int) < 2147483648) : asI32 n = n := by
  unfold asI32 wrap32; omega

/-! ### The value computed by each buffer operation -/

theorem fill_with_values_data (b : DataBuffer) (s : Int) :
    (b.fill_with_values s).data =
      (List.range b.data.length).map (fun i => wrap32 (s + asI32 i)) := by
  apply List.ext_getElem?
  intro n
  by_cases h : n < b.data.length
  · rw [DataBuffer.fill_with_values, List.getElem?_mapIdx,
      List.getElem?_eq_getElem h, List.getElem?_map, List.getElem?_range h]
    rfl
  · rw [DataBuffer.fill_with_values, List.getElem?_mapIdx,
      List.getElem?_eq_none (by omega),
      List.getElem?_eq_none (by simpa using by omega)]
    rfl

theorem fill_with_values_getElem? (b : DataBuffer) (s : Int) {i : Nat}
    (h : i < b.data.length) :
    (b.fill_with_values s).data[i]? = some (wrap32 (s + asI32 i)) := by
  rw [fill_with_values_data, List.getElem?_map, List.getElem?_range h]
  rfl

theorem foldl_wrap32_add (l : List Int) :
    ∀ a : Int, l.foldl (fun acc x => wrap32 (acc + x)) (wrap32 a) =
      wrap32 (a + l.sum) := by
  induction l with
  | nil => intro a; simp
  | cons x xs ih =>
    intro a
    have h1 : wrap32 (wrap32 a + x) = wrap32 (a + x) := wrap32_add_left a x
    calc (x :: xs).foldl (fun acc x => wrap32 (acc + x)) (wrap32 a)
        = xs.foldl (fun acc x => wrap32 (acc + x)) (wrap32 (wrap32 a + x)) := by
          simp [List.foldl_cons]
      _ = xs.foldl (fun acc x => wrap32 (acc + x)) (wrap32 (a + x)) := by rw [h1]
      _ = wrap32 (a + x + xs.sum) := ih (a + x)
      _ = wrap32 (a + (x :: xs).sum) := by rw [List.sum_cons]; ring_nf

theorem into_sum_eq_wrap32_sum (b : DataBuffer) :
    b.into_sum = wrap32 b.data.sum := by
  have h0 : (0 : Int) = wrap32 0 := by decide
  rw [DataBuffer.into_sum, h0, foldl_wrap32_add]
  ring_nf

theorem sum_map_one_add_range (n : Nat) :
    2 * (((List.range n).map (fun i : Nat => (1 : Int) + (i : Int))).sum)
      = (n : Int) * ((n : Int) + 1) := by
  induction n with
  | zero => simp
  | succ m ih =>
    rw [List.range_succ, List.map_append, List.sum_append]
    push_cast
    push_cast at ih
    simp only [List.map_cons, List.map_nil, List.sum_cons, List.sum_nil]
    nlinarith [ih]

theorem into_sum_fill_one (b : DataBuffer)
    (h : b.data.length ≤ 2147483647) :
    (b.fill_with_values 1).into_sum =
      wrap32 ((b.data.length : Int) * ((b.data.length : Int) + 1) / 2) := by
  rw [into_sum_eq_wrap32_sum, fill_with_values_data]
  have hmap : (List.range b.data.length).map (fun i => wrap32 (1 + asI32 i))
      = (List.range b.data.length).map (fun i : Nat => (1 : Int) + (i : Int)) := by
    apply List.map_congr_left
    intro i hi
    rw [List.mem_range] at hi
    have hi2 : (i : Int) < 2147483648 := by omega
    rw [asI32_eq_self hi2, wrap32_eq_self]
    constructor <;> omega
  rw [hmap]
  have hsum := sum_map_one_add_range b.data.length
  have : ((List.range b.data.length).map (fun i : Nat => (1 : Int) + (i : Int))).sum
      = (b.data.length : Int) * ((b.data.length : Int) + 1) / 2 := by omega
  rw [this]

/-! ### The checked (debug-profile) loops succeed exactly when every
intermediate value is representable -/

theorem mapOpt_eq_map {α β : Type} (f : α → Option β) (g : α → β)
    (l : List α) (h : ∀ x ∈ l, f x = some (g x)) :
    mapOpt f l = some (l.map g) := by
  induction l with
  | nil => rfl
  | cons x xs ih =>
    have hx : f x = some (g x) := h x (List.mem_cons_self x xs)
    have hxs : mapOpt f xs = some (xs.map g) :=
      ih (fun y hy => h y (List.mem_cons_of_mem x hy))
    simp [mapOpt, hx, hxs]

theorem sumChecked_eq (l : List Int) :
    ∀ a : Int, sumsOk a l = true →
      sumChecked a l = some (l.foldl (fun acc x => wrap32 (acc + x)) a) := by
  induction l with
  | nil => intro a _; rfl
  | cons x xs ih =>
    intro a h
    rw [sumsOk, Bool.and_eq_true, decide_eq_true_eq] at h
    have h1 : checkedAdd a x = some (a + x) := by
      rw [checkedAdd, if_pos h.1]
    have h2 : wrap32 (a + x) = a + x := wrap32_eq_self h.1
    rw [List.foldl_cons]
    rw [sumChecked]
    rw [h1]
    rw [Option.bind_eq_bind, Option.some_bind]
    rw [h2]
    exact ih (a + x) h.2

/-! ### Map states reached without touching a key keep its binding -/

theorem applyOps_key_untouched (ops : List MapOp) :
    ∀ (m : HMap) (k : String), (∀ op ∈ ops, op.key ≠ k) →
      applyOps m ops k = m k := by
  induction ops with
  | nil => intro m k _; rfl
  | cons op rest ih =>
    intro m k h
    have hop : op.key ≠ k := h op (List.mem_cons_self op rest)
    have hrest : ∀ o ∈ rest, o.key ≠ k :=
      fun o ho => h o (List.mem_cons_of_mem op ho)
    have hstep : MapOp.apply m op k = m k := by
      cases op with
      | insert q v =>
        have hq : q ≠ k := hop
        simp [MapOp.apply, HMap.insert, if_neg (Ne.symm hq)]
      | remove q =>
        have hq : q ≠ k := hop
        simp [MapOp.apply, HMap.remove, if_neg (Ne.symm hq)]
    calc applyOps m (op :: rest) k = applyOps (MapOp.apply m op) rest k := rfl
      _ = MapOp.apply m op k := ih (MapOp.apply m op) k hrest
      _ = m k := hstep

/-! ### The claims -/

/-- C1, counterexample: at length `N = 65536` the filled buffer `1..N`
sums to `2147516416`, which exceeds the `i32` maximum, so `into_sum`
does not return `N*(N+1)/2` (the `i32` sum wraps; the debug build
panics). -/
theorem C1_counterexample :
    ((DataBuffer.new ("Buffer") 65536).fill_with_values 1).into_sum
      ≠ 2147516416 := by
  have hlen : (DataBuffer.new ("Buffer") 65536).data.length = 65536 :=
    List.length_replicate 65536 0
  have h := into_sum_fill_one (DataBuffer.new ("Buffer") 65536)
    (by rw [hlen]; omega)
  rw [hlen] at h
  rw [h]
  decide

/-- C1, amended: for every buffer of length `N ≤ 65535` whose elements
were set by `fill_with_values` with start value `1`, `into_sum` returns
`N*(N+1)/2` (for larger `N` that value exceeds the `i32` range and the
sum wraps). -/
theorem C1_theorem (b : DataBuffer) (h : b.data.length ≤ 65535) :
    (b.fill_with_values 1).into_sum
      = (b.data.length : Int) * ((b.data.length : Int) + 1) / 2 := by
  have h1 := into_sum_fill_one b (by omega)
  rw [h1]
  apply wrap32_eq_self
  have hN0 : (0 : Int) ≤ (b.data.length : Int) := Int.natCast_nonneg _
  have hNle : (b.data.length : Int) ≤ 65535 := by exact_mod_cast h
  have hmul0 : (0 : Int) ≤ (b.data.length : Int) * ((b.data.length : Int) + 1) :=
    mul_nonneg hN0 (by omega)
  have hmul : (b.data.length : Int) * ((b.data.length : Int) + 1)
      ≤ 65535 * 65536 := by nlinarith
  constructor
  · have := Int.ediv_nonneg hmul0 (by norm_num : (0 : Int) ≤ 2)
    omega
  · have := Int.ediv_le_ediv (by norm_num : (0 : Int) < 2) hmul
    omega

/-- C1, witness: a buffer of length 3 filled from 1 sums to `3*4/2 = 6`. -/
theorem C1_witness :
    (DataBuffer.new ("W") 3).data.length ≤ 65535
    ∧ ((DataBuffer.new ("W") 3).fill_with_values 1).into_sum = 6 :=
  ⟨by decide, (C1_theorem (DataBuffer.new ("W") 3) (by decide)).trans (by decide)⟩

/-- C2, counterexample: filling a buffer of length 2 with start value
`S = 2147483647` puts `wrap32 (S+1) = -2147483648`, not `S+1`, at index 1
(the addition overflows `i32`; the debug build panics). -/
theorem C2_counterexample :
    ¬ (((DataBuffer.new ("B") 2).fill_with_values 2147483647).data[1]?
        = some 2147483648) := by decide

/-- C2, amended: after `fill_with_values` with start value `S`, the element
at each index `i < N` equals `S+i` whenever `S+i` is representable as an
`i32` (otherwise the stored value is `S+i` wrapped into the `i32` range). -/
theorem C2_theorem (b : DataBuffer) (s : Int) (i : Nat)
    (h1 : i < b.data.length) (h2 : inRange32 (s + (i : Int))) :
    (b.fill_with_values s).data[i]? = some (s + (i : Int)) := by
  rw [fill_with_values_getElem? b s h1]
  have ha : wrap32 (s + asI32 i) = wrap32 (s + (i : Int)) := by
    simp only [asI32]
    exact wrap32_add_right s (i : Int)
  rw [ha, wrap32_eq_self h2]

/-- C2, witness: filling a buffer of length 3 with start 5 puts `7` at
index 2. -/
theorem C2_witness :
    2 < (DataBuffer.new ("W") 3).data.length
    ∧ inRange32 (5 + (2 : Int))
    ∧ ((DataBuffer.new ("W") 3).fill_with_values 5).data[2]? = some 7 :=
  ⟨by decide, by decide,
    (C2_theorem (DataBuffer.new ("W") 3) 5 2 (by decide) (by decide)).trans
      (by decide)⟩

/-- C3, counterexample: on a buffer holding `2^30`, `modify_buffer` with
multiplier 4 stores `wrap32 (2^32) = 0`, not `4 * 2^30` (the
multiplication overflows `i32`; the debug build panics). -/
theorem C3_counterexample :
    ¬ ((modify_buffer ((DataBuffer.new ("B") 1).fill_with_values 1073741824)
          4).data[0]? = some 4294967296) := by decide

/-- C3, amended: after `modify_buffer` with multiplier `M`, each element
equals `M` times its previous value whenever that product is representable
as an `i32` (otherwise the stored value is the product wrapped into the
`i32` range). -/
theorem C3_theorem (b : DataBuffer) (m : Int) (i : Nat) (x : Int)
    (h1 : b.data[i]? = some x) (h2 : inRange32 (x * m)) :
    (modify_buffer b m).data[i]? = some (x * m) := by
  show (b.data.map (fun x => wrap32 (x * m)))[i]? = some (x * m)
  rw [List.getElem?_map, h1, Option.map_some', wrap32_eq_self h2]

/-- C3, witness: a buffer holding `[2, 3]` modified with multiplier 10
holds `30` at index 1. -/
theorem C3_witness :
    ((DataBuffer.new ("W") 2).fill_with_values 2).data[1]? = some 3
    ∧ inRange32 (3 * 10)
    ∧ (modify_buffer ((DataBuffer.new ("W") 2).fill_with_values 2)
        10).data[1]? = some 30 :=
  ⟨by decide, by decide,
    (C3_theorem ((DataBuffer.new ("W") 2).fill_with_values 2) 10 1 3
      (by decide) (by decide)).trans (by decide)⟩

/-- C4: in every map state reached from `insert k v` by operations none of
which targets `k` (so `k` was inserted with `v` and not overwritten
since), `remove k` returns `some v`, and in the resulting map `get k`
returns `none`. -/
theorem C4_theorem (m : HMap) (k : String) (v : List Int) (ops : List MapOp)
    (h : ∀ op ∈ ops, op.key ≠ k) :
    ((applyOps (m.insert k v) ops).remove k).1 = some v
    ∧ HMap.get ((applyOps (m.insert k v) ops).remove k).2 k = none := by
  have hkeep : applyOps (m.insert k v) ops k = m.insert k v k :=
    applyOps_key_untouched ops (m.insert k v) k h
  constructor
  · show applyOps (m.insert k v) ops k = some v
    rw [hkeep]
    simp [HMap.insert]
  · show (if k = k then none else applyOps (m.insert k v) ops k) = none
    simp

/-- C4, witness: the DEMO 6 state (insert `key1`, insert `key2`): removing
`key2` returns `[4, 5, 6]` and afterwards `get key2` is `none`. -/
theorem C4_witness :
    ((applyOps ((HMap.empty.insert ("key1") [1, 2, 3]).insert ("key2")
        [4, 5, 6]) []).remove ("key2")).1 = some [4, 5, 6]
    ∧ HMap.get ((applyOps ((HMap.empty.insert ("key1") [1, 2, 3]).insert
        ("key2") [4, 5, 6]) []).remove ("key2")).2 ("key2") = none :=
  C4_theorem (HMap.empty.insert ("key1") [1, 2, 3]) ("key2") [4, 5, 6] []
    (by intro op hop; exact absurd hop (List.not_mem_nil op))

/-- C5, counterexample: two runs of the program whose DEMO 1 vector lands
at different heap addresses print different output, because
`display_info` (line 27) and DEMO 5 (line 141) print runtime pointer
values; the output is therefore not a run-independent constant. -/
theorem C5_counterexample : mainOutput 0 0 0 0 ≠ mainOutput 1 0 0 0 := by
  decide

set_option maxHeartbeats 1600000 in
/-- C5, amended: the console output is fixed and identical across runs
except for the five memory-address lines (the pointer prints), which
depend on the runtime heap addresses: masking exactly those five lines
yields the same constant line sequence for any addresses. -/
theorem C5_theorem (a1 a2 a3 a5 b1 b2 b3 b5 : Nat) :
    maskAddrs (mainOutput a1 a2 a3 a5) = maskAddrs (mainOutput b1 b2 b3 b5) :=
  rfl

/-- C6, counterexample: under the debug profile, `fill_with_values` on a
buffer of length 2 with start value `2147483647` panics with overflow at
index 1 (`2147483647 + 1` is not an `i32`), so not every operation
succeeds unconditionally. -/
theorem C6_counterexample :
    (DataBuffer.new ("B") 2).fill_with_values_checked 2147483647 = none := by
  decide

/-- C6, amended: `new`, `display_info` and `process_buffer` always
succeed, and `fill_with_values`, `into_sum` and `modify_buffer` succeed
(and agree with the wrapping release semantics) whenever their
intermediate `i32` arithmetic stays in range; an overflow panics the
debug build (wraps in release). -/
theorem C6_theorem :
    (∀ (b : DataBuffer) (s : Int),
        (∀ i : Nat, i < b.data.length → inRange32 (s + asI32 i)) →
        b.fill_with_values_checked s = some (b.fill_with_values s))
    ∧ (∀ b : DataBuffer, sumsOk 0 b.data = true →
        b.into_sum_checked = some b.into_sum)
    ∧ (∀ (b : DataBuffer) (m : Int), (∀ x ∈ b.data, inRange32 (x * m)) →
        modify_buffer_checked b m = some (modify_buffer b m)) := by
  refine ⟨?_, ?_, ?_⟩
  · intro b s h
    obtain ⟨d, n⟩ := b
    dsimp only at h ⊢
    have hdata : d.mapIdx (fun i _ => wrap32 (s + asI32 i))
        = (List.range d.length).map (fun i => wrap32 (s + asI32 i)) :=
      fill_with_values_data ⟨d, n⟩ s
    have hfill : DataBuffer.fill_with_values ⟨d, n⟩ s
        = ⟨(List.range d.length).map (fun i => wrap32 (s + asI32 i)), n⟩ :=
      congrArg (fun l => DataBuffer.mk l n) hdata
    have hm : mapOpt (fun i => checkedAdd s (asI32 i)) (List.range d.length)
        = some ((List.range d.length).map (fun i => wrap32 (s + asI32 i))) := by
      apply mapOpt_eq_map
      intro i hi
      rw [List.mem_range] at hi
      have hr := h i hi
      rw [checkedAdd, if_pos hr, wrap32_eq_self hr]
    unfold DataBuffer.fill_with_values_checked
    dsimp only
    rw [hm, hfill]
    rfl
  · intro b h
    exact sumChecked_eq b.data 0 h
  · intro b m h
    obtain ⟨d, n⟩ := b
    dsimp only at h ⊢
    have hm : mapOpt (fun x => checkedMul x m) d
        = some (d.map (fun x => wrap32 (x * m))) := by
      apply mapOpt_eq_map
      intro x hx
      have hr := h x hx
      rw [checkedMul, if_pos hr, wrap32_eq_self hr]
    unfold modify_buffer_checked
    dsimp only
    rw [hm]
    rfl

/-- C6, witness: on a length-2 buffer with small values, the checked
(debug) semantics of fill, sum and modify all succeed and return the
wrapping-semantics results. -/
theorem C6_witness :
    (DataBuffer.new ("W") 2).fill_with_values_checked 5
      = some ((DataBuffer.new ("W") 2).fill_with_values 5)
    ∧ ((DataBuffer.new ("W") 2).fill_with_values 1).into_sum_checked
      = some (((DataBuffer.new ("W") 2).fill_with_values 1).into_sum)
    ∧ modify_buffer_checked ((DataBuffer.new ("W") 2).fill_with_values 1) 3
      = some (modify_buffer ((DataBuffer.new ("W") 2).fill_with_values 1) 3) :=
  ⟨C6_theorem.1 (DataBuffer.new ("W") 2) 5 (by decide),
   C6_theorem.2.1 ((DataBuffer.new ("W") 2).fill_with_values 1) (by decide),
   C6_theorem.2.2 ((DataBuffer.new ("W") 2).fill_with_values 1) 3 (by decide)⟩

/-- C7: `new(name, size)` produces a buffer of data length `size`, and
`fill_with_values`, `modify_buffer` and `display_info` all preserve the
data length. -/
theorem C7_theorem (name : String) (size : Nat) (b : DataBuffer)
    (s m : Int) (a : Nat) :
    (DataBuffer.new name size).data.length = size
    ∧ (b.fill_with_values s).data.length = b.data.length
    ∧ (modify_buffer b m).data.length = b.data.length
    ∧ ((b.display_info a).2).data.length = b.data.length := by
  refine ⟨List.length_replicate size 0, ?_, ?_, rfl⟩
  · show (b.data.mapIdx (fun i _ => wrap32 (s + asI32 i))).length = _
    exact List.length_mapIdx
  · show (b.data.map (fun x => wrap32 (x * m))).length = _
    exact List.length_map b.data _

/-- C8, counterexample: on a buffer with `2^31` positive elements the
`count() as i32` cast truncates, so `process_buffer` returns
`-2147483648`, not the number of elements strictly greater than 0. -/
theorem C8_counterexample :
    (process_buffer { data := List.replicate 2147483648 1, name := ("B") }).1
      ≠ 2147483648 := by
  have hc : (List.replicate 2147483648 (1 : Int)).countP
      (fun x => decide (0 < x)) = 2147483648 := by
    rw [List.countP_replicate]
    norm_num
  show asI32 ((List.replicate 2147483648 (1 : Int)).countP
      (fun x => decide (0 < x))) ≠ 2147483648
  rw [hc]
  decide

/-- C8, amended: `process_buffer` returns the number of elements strictly
greater than 0 whenever that count is below `2^31` (beyond that the
`usize → i32` cast truncates), and leaves the buffer unchanged. -/
theorem C8_theorem (b : DataBuffer)
    (h : b.data.countP (fun x => decide (0 < x)) < 2147483648) :
    (process_buffer b).1 = (b.data.countP (fun x => decide (0 < x)) : Int)
    ∧ (process_buffer b).2 = b :=
  ⟨asI32_eq_self (by exact_mod_cast h), rfl⟩

/-- C8, witness: on the buffer `[1, 2]`, `process_buffer` counts 2
positive elements and returns the buffer unchanged. -/
theorem C8_witness :
    ((DataBuffer.new ("W") 2).fill_with_values 1).data.countP
        (fun x => decide (0 < x)) < 2147483648
    ∧ (process_buffer ((DataBuffer.new ("W") 2).fill_with_values 1)).1 = 2
    ∧ (process_buffer ((DataBuffer.new ("W") 2).fill_with_values 1)).2
      = (DataBuffer.new ("W") 2).fill_with_values 1 :=
  ⟨by decide,
   ((C8_theorem ((DataBuffer.new ("W") 2).fill_with_values 1)
      (by decide)).1).trans (by decide),
   (C8_theorem ((DataBuffer.new ("W") 2).fill_with_values 1) (by decide)).2⟩

/-- C9: `new(name, size)` produces a buffer whose data is `size` zeros
and whose name is the given name, and `process_buffer` on a fresh buffer
returns 0. -/
theorem C9_theorem (name : String) (size : Nat) :
    (DataBuffer.new name size).data = List.replicate size 0
    ∧ (DataBuffer.new name size).name = name
    ∧ (process_buffer (DataBuffer.new name size)).1 = 0 := by
  refine ⟨rfl, rfl, ?_⟩
  show asI32 ((List.replicate size (0 : Int)).countP
      (fun x => decide (0 < x))) = 0
  rw [List.countP_replicate]
  norm_num
  decide

/-- C10: `fill_with_values` and `modify_buffer` leave the `name` field
unchanged; they rebuild only the `data` field. -/
theorem C10_theorem (b : DataBuffer) (s m : Int) :
    (b.fill_with_values s).name = b.name
    ∧ (modify_buffer b m).name = b.name :=
  ⟨rfl, rfl⟩
